import Mathlib

/-!
Verification development for the openrelik-server excerpt: a shallow
embedding of the LLM provider registry (`plugins/llm/manager.py`), the
file and user CRUD layers (`datastores/sql/crud/file.py`,
`datastores/sql/crud/user.py`), the Workflow/Task/File schema
(`datastores/sql/models/workflow.py`) and the `/system/` configuration
endpoint (`api/v1/configs.py`), together with theorems settling the
specification's claims about them.

Python sessions, dictionaries and raised exceptions are modelled
explicitly: a SQLAlchemy session is a record of table rows, an operation
that can raise returns `Except String`, and Python dict/attribute
truthiness is spelled out where the source relies on it.
-/

namespace OpenRelik

/-- Python's `str.lower()` (ASCII case folding, which covers the
provider names occurring in the program). -/
def pyLower (s : String) : String :=
  String.mk (s.data.map Char.toLower)

/-! ## Provider registry (`plugins/llm/manager.py`)

A provider class carries its `NAME` attribute; `classId` stands for the
identity of the Python class object so that distinct classes with
case-variant names are distinct values. `LLMManager._class_registry` is a
Python dict, modelled as an insertion-ordered association list. -/

structure ProviderClass where
  NAME : String
  classId : Nat
  deriving DecidableEq

/-- The `_class_registry` class attribute: a dict from name to class. -/
abbrev Registry := List (String × ProviderClass)

/-- Python's `provider_name in cls._class_registry` dict membership test. -/
def hasProviderName (reg : Registry) (n : String) : Bool :=
  reg.any (fun kv => kv.1 == n)

/-- Embeds `LLMManager.register_provider`: computes `provider_class.NAME.lower()`,
raises `ValueError` if that key is already present, otherwise inserts. -/
def register_provider (reg : Registry) (provider_class : ProviderClass) :
    Except String Registry :=
  let provider_name := pyLower provider_class.NAME
  if hasProviderName reg provider_name then
    Except.error ("Provider " ++ provider_class.NAME ++ " already registered")
  else
    Except.ok (reg ++ [(provider_name, provider_class)])

/-- Embeds `LLMManager.get_provider`: looks up `provider_name.lower()`, raising
`KeyError` with the normalized name when absent. -/
def get_provider (reg : Registry) (provider_name : String) :
    Except String ProviderClass :=
  match reg.find? (fun kv => kv.1 == pyLower provider_name) with
  | some kv => Except.ok kv.2
  | none => Except.error ("No such provider: " ++ pyLower provider_name)

/-! ## File domain (`datastores/sql/crud/file.py` and the File model)

The filesystem collaborator (`magic.from_file`, `os.stat`) is a partial
map from paths to the derivable metadata; `none` models the raised
OSError / IOError for a missing or unreadable file. -/

structure FolderRow where
  id : Nat
  path : String
  deriving DecidableEq

structure FsMeta where
  magic_text : String
  magic_mime : String
  st_size : Nat
  deriving DecidableEq

/-- The `file` dict argument of `create_file_in_db`: the keys the
function reads. `none` models an absent key (`dict.get` returning
None). -/
structure NewFile where
  folder_id : Nat
  uuid : String
  extension : Option String
  data_type : Option String
  display_name : String
  deriving DecidableEq

/-- A File row: `folder_id`, the derived metadata columns, and the two
independent nullable task foreign keys. -/
structure FileRow where
  id : Nat
  folder_id : Nat
  uuid : String
  extension : Option String
  display_name : String
  data_type : String
  magic_text : String
  magic_mime : String
  filesize : Nat
  task_input_id : Option Nat := none
  task_output_id : Option Nat := none
  deriving DecidableEq

/-- The session state for the file domain: Folder and File tables plus
the autoincrement counter for File ids. -/
structure FileDB where
  folders : List FolderRow
  files : List FileRow
  next_file_id : Nat
  deriving DecidableEq

/-- Embeds `db.get(File, file_id)`: point lookup returning None when absent. -/
def sessionGetFile (db : FileDB) (file_id : Nat) : Option FileRow :=
  db.files.find? (fun f => f.id == file_id)

/-- Embeds `db.delete(instance)` on the File table. SQLAlchemy's
`Session.delete` raises `UnmappedInstanceError` when handed `None`
(before touching any state); on a real row it marks it deleted, and the
following `commit` removes it. -/
def sessionDeleteFile (db : FileDB) (inst : Option FileRow) :
    Except String FileDB :=
  match inst with
  | none => Except.error "UnmappedInstanceError: None is not mapped"
  | some f =>
      Except.ok { db with files := db.files.filter (fun g => g.id != f.id) }

/-- Embeds `delete_file_from_db`: `file = db.get(File, file_id)` then
`db.delete(file)` and `db.commit()`. -/
def delete_file_from_db (db : FileDB) (file_id : Nat) :
    Except String FileDB :=
  sessionDeleteFile db (sessionGetFile db file_id)

/-- Session state after `delete_file_from_db`: a raised exception
propagates before any mutation, leaving the state unchanged. -/
def fileDbAfterDelete (db : FileDB) (file_id : Nat) : FileDB :=
  match delete_file_from_db db file_id with
  | Except.ok db₂ => db₂
  | Except.error _ => db

/-- The descending-identifier order of `order_by(File.id.desc())`. -/
def fileIdGe (a b : FileRow) : Prop := b.id ≤ a.id

instance : DecidableRel fileIdGe := fun a b => Nat.decLe b.id a.id

instance : IsTotal FileRow fileIdGe := ⟨fun a b => Nat.le_total b.id a.id⟩

instance : IsTrans FileRow fileIdGe := ⟨fun _ _ _ h₁ h₂ => Nat.le_trans h₂ h₁⟩

/-- Embeds `get_files_from_db`: `query(File).filter_by(folder_id=...)`
`.order_by(File.id.desc()).all()`. -/
def get_files_from_db (db : FileDB) (folder_id : Nat) : List FileRow :=
  List.insertionSort fileIdGe
    (db.files.filter (fun f => f.folder_id == folder_id))

/-- Modelled from the spec: `get_folder_from_db` (crud/folder.py is not
part of the excerpt) resolves the owning Folder — a point lookup by id
returning an absence signal (None) when not found. -/
def get_folder_from_db (db : FileDB) (folder_id : Nat) : Option FolderRow :=
  db.folders.find? (fun fo => fo.id == folder_id)

/-- Python's `os.path.join` for the two-argument form used by the source. -/
def osPathJoin (a b : String) : String :=
  if b.data.head? = some '/' then b
  else if a.data = [] ∨ a.data.getLast? = some '/' then a ++ b
  else a ++ "/" ++ b

/-- The `filename` local of `create_file_in_db`: the uuid, with the
extension appended when the dict holds a truthy extension. -/
def fileBaseName (file : NewFile) : String :=
  match file.extension with
  | some e => if e = "" then file.uuid else file.uuid ++ "." ++ e
  | none => file.uuid

/-- Embeds `create_file_in_db`: resolves the Folder (dereferencing its `path`
attribute, which raises AttributeError when the lookup returned None),
derives the on-disk path, inspects the file (`magic.from_file`,
`os.stat` — both raise when the path is inaccessible), defaults
`data_type` to the generic sentinel for a falsy value, then inserts and
commits the File row. -/
def create_file_in_db (fs : String → Option FsMeta) (db : FileDB)
    (file : NewFile) : Except String (FileRow × FileDB) :=
  match get_folder_from_db db file.folder_id with
  | none => Except.error "AttributeError: NoneType object has no attribute path"
  | some folder =>
      let output_file := osPathJoin folder.path (fileBaseName file)
      match fs output_file with
      | none => Except.error "magic.from_file: cannot open the derived path"
      | some meta =>
          let dt := match file.data_type with
            | some d => if d = "" then "file:generic" else d
            | none => "file:generic"
          let row : FileRow :=
            { id := db.next_file_id, folder_id := file.folder_id,
              uuid := file.uuid, extension := file.extension,
              display_name := file.display_name, data_type := dt,
              magic_text := meta.magic_text, magic_mime := meta.magic_mime,
              filesize := meta.st_size }
          Except.ok (row,
            { db with
              files := db.files ++ [row],
              next_file_id := db.next_file_id + 1 })

/-- Session state after `create_file_in_db`: a raised exception
propagates before `db.add`, leaving the state unchanged. -/
def fileDbAfterCreate (fs : String → Option FsMeta) (db : FileDB)
    (file : NewFile) : FileDB :=
  match create_file_in_db fs db file with
  | Except.ok r => r.2
  | Except.error _ => db

/-! ## User domain (`datastores/sql/crud/user.py`) -/

/-- The `schemas.UserCreate` payload: the fields `create_user_in_db`
copies onto the new row. -/
structure UserCreate where
  display_name : String
  username : String
  password_hash : Option String
  password_hash_algorithm : Option String
  auth_method : Option String
  email : Option String
  profile_picture_url : Option String
  uuid : String
  is_admin : Bool
  is_active : Bool
  is_robot : Bool
  deriving DecidableEq

structure UserRow where
  id : Nat
  display_name : String
  username : String
  password_hash : Option String
  password_hash_algorithm : Option String
  auth_method : Option String
  email : Option String
  profile_picture_url : Option String
  uuid : String
  is_admin : Bool
  is_active : Bool
  is_robot : Bool
  deriving DecidableEq

structure GroupRow where
  id : Nat
  name : String
  deriving DecidableEq

structure UserRoleRow where
  id : Nat
  role : String
  user_id : Nat
  folder_id : Option Nat
  file_id : Option Nat
  deriving DecidableEq

structure UserApiKeyRow where
  id : Nat
  display_name : String
  description : String
  token_jti : String
  token_exp : Nat
  user_id : Nat
  deriving DecidableEq

/-- The session state for the user domain: User, Group, UserRole and
UserApiKey tables, the user-group membership association table, and the
autoincrement counters the claims need. -/
structure UserDB where
  users : List UserRow
  groups : List GroupRow
  user_groups : List (Nat × Nat)
  user_roles : List UserRoleRow
  api_keys : List UserApiKeyRow
  next_user_id : Nat
  next_group_id : Nat
  deriving DecidableEq

/-- Modelled from the spec: `get_group_by_name_from_db` (crud/group.py
is not part of the excerpt) is a point lookup of the Group row by name,
returning an absence signal (None) when not found. -/
def get_group_by_name_from_db (db : UserDB) (name : String) :
    Option GroupRow :=
  db.groups.find? (fun g => g.name == name)

/-- Modelled from the spec: `create_group_in_db` (crud/group.py is not
part of the excerpt) inserts and commits a new Group row with the given
name. -/
def create_group_in_db (db : UserDB) (name : String) : GroupRow × UserDB :=
  let g : GroupRow := { id := db.next_group_id, name := name }
  (g, { db with
        groups := db.groups ++ [g],
        next_group_id := db.next_group_id + 1 })

/-- The `User(...)` row `create_user_in_db` builds from the payload
(the id is assigned by the autoincrement counter at commit). -/
def newUserRow (db : UserDB) (new_user : UserCreate) : UserRow :=
  { id := db.next_user_id, display_name := new_user.display_name,
    username := new_user.username, password_hash := new_user.password_hash,
    password_hash_algorithm := new_user.password_hash_algorithm,
    auth_method := new_user.auth_method, email := new_user.email,
    profile_picture_url := new_user.profile_picture_url,
    uuid := new_user.uuid, is_admin := new_user.is_admin,
    is_active := new_user.is_active, is_robot := new_user.is_robot }

/-- Embeds `create_user_in_db`: builds the new User row from the payload, looks
up the "Everyone" group and creates it when absent, appends the new user
to that group, then adds and commits. -/
def create_user_in_db (db : UserDB) (new_user : UserCreate) :
    UserRow × UserDB :=
  let new_db_user : UserRow := newUserRow db new_user
  match get_group_by_name_from_db db "Everyone" with
  | some everyone_group =>
      (new_db_user,
        { db with
          users := db.users ++ [new_db_user],
          user_groups := db.user_groups ++ [(new_db_user.id, everyone_group.id)],
          next_user_id := db.next_user_id + 1 })
  | none =>
      let r := create_group_in_db db "Everyone"
      (new_db_user,
        { r.2 with
          users := r.2.users ++ [new_db_user],
          user_groups := r.2.user_groups ++ [(new_db_user.id, r.1.id)],
          next_user_id := r.2.next_user_id + 1 })

/-- Embeds `query(UserRole).filter(UserRole.id == user_role_id).first()`. -/
def userRoleQueryFirst (db : UserDB) (user_role_id : Nat) :
    Option UserRoleRow :=
  db.user_roles.find? (fun r => r.id == user_role_id)

/-- Embeds `db.delete(instance)` on the UserRole table; raises
`UnmappedInstanceError` when handed `None`. -/
def sessionDeleteUserRole (db : UserDB) (inst : Option UserRoleRow) :
    Except String UserDB :=
  match inst with
  | none => Except.error "UnmappedInstanceError: None is not mapped"
  | some r =>
      Except.ok
        { db with user_roles := db.user_roles.filter (fun s => s.id != r.id) }

/-- Embeds `delete_user_role_from_db`: first-match query then `db.delete` and
`db.commit`. -/
def delete_user_role_from_db (db : UserDB) (user_role_id : Nat) :
    Except String UserDB :=
  sessionDeleteUserRole db (userRoleQueryFirst db user_role_id)

/-- Session state after `delete_user_role_from_db`: a raised exception
propagates before any mutation, leaving the state unchanged. -/
def userDbAfterRoleDelete (db : UserDB) (user_role_id : Nat) : UserDB :=
  match delete_user_role_from_db db user_role_id with
  | Except.ok db₂ => db₂
  | Except.error _ => db

/-- Embeds `delete_user_api_key_from_db`: queries for the key filtered by both
the key id and the calling user's id, and deletes only when that query
found a row. -/
def delete_user_api_key_from_db (db : UserDB) (apikey_id : Nat)
    (current_user : UserRow) : UserDB :=
  match db.api_keys.find?
      (fun k => k.id == apikey_id && k.user_id == current_user.id) with
  | some api_key =>
      { db with api_keys := db.api_keys.filter (fun k => k.id != api_key.id) }
  | none => db

/-! ## Workflow domain (`datastores/sql/models/workflow.py`) -/

structure WorkflowRow where
  id : Nat
  display_name : String
  uuid : Option String
  spec_json : Option String
  user_id : Nat
  folder_id : Option Nat
  deriving DecidableEq

structure TaskRow where
  id : Nat
  display_name : String
  uuid : String
  user_id : Nat
  workflow_id : Nat
  deriving DecidableEq

structure WorkflowDB where
  workflows : List WorkflowRow
  tasks : List TaskRow
  files : List FileRow
  deriving DecidableEq

/-- Deletion of a Workflow row under the relationship declarations of
models/workflow.py: `Workflow.tasks` is declared with cascade
"all, delete-orphan", so the Workflow's Task rows are deleted with it;
`Task.input_files` and `Task.output_files` carry no delete cascade, so
on Task deletion SQLAlchemy detaches the dependent File rows by nulling
their `task_input_id` / `task_output_id` foreign keys instead of
deleting them. -/
def delete_workflow_from_db (db : WorkflowDB) (workflow_id : Nat) :
    WorkflowDB :=
  let deleted :=
    (db.tasks.filter (fun t => t.workflow_id == workflow_id)).map
      (fun t => t.id)
  { workflows := db.workflows.filter (fun w => w.id != workflow_id),
    tasks := db.tasks.filter (fun t => t.workflow_id != workflow_id),
    files := db.files.map (fun f =>
      { f with
        task_input_id := match f.task_input_id with
          | some t => if t ∈ deleted then none else some t
          | none => none,
        task_output_id := match f.task_output_id with
          | some t => if t ∈ deleted then none else some t
          | none => none }) }

/-! ## Configuration endpoint (`api/v1/configs.py`) -/

/-- One `llms` service entry of the configuration mapping: its truthy
`enabled` flag (`service.get("enabled", False)`) plus the rest of the
service's settings, opaque to the endpoint. -/
structure LlmServiceConfig where
  name : String
  enabled : Option Bool
  deriving DecidableEq

/-- The configuration mapping: `llms` is `none` when the key is absent
(`config.get("llms", [])` then falls back to an empty list). -/
structure Config where
  llms : Option (List (String × LlmServiceConfig))
  active_cloud_provider : Option String
  deriving DecidableEq

/-- Modelled from the spec: `get_active_cloud_provider` (config.py is
not part of the excerpt) exposes the active cloud-provider identity
from the configuration. -/
def get_active_cloud_provider (cfg : Config) : Option String :=
  cfg.active_cloud_provider

/-- The response object of `GET /system/`: exactly the keys
`active_llms`, `data_types`, `active_cloud`. -/
structure SystemResponse where
  active_llms : List LlmServiceConfig
  data_types : List String
  active_cloud : Option String
  deriving DecidableEq

/-- Embeds `get_system_config` (`GET /system/`): `config.get("llms", [])`
defaults to a *list* when the key is absent, and the next line calls
`.values()` on it — on a list that raises AttributeError (an HTTP 500),
on the usual dict it enumerates the services, which are then filtered
by their truthy `enabled` flag. -/
def get_system_config (cfg : Config) : Except String SystemResponse :=
  match cfg.llms with
  | none => Except.error "AttributeError: list object has no attribute values"
  | some llms =>
      let active_llms :=
        (llms.map Prod.snd).filter (fun s => s.enabled.getD false)
      let data_types := ["text/csv", "text/json"]
      let active_cloud := get_active_cloud_provider cfg
      Except.ok { active_llms := active_llms, data_types := data_types,
                  active_cloud := active_cloud }

/-- A database whose folder 7 holds three files created in order A, B,
C (ids 1, 2, 3), used by the concrete witnesses. -/
def threeFileDB : FileDB :=
  ⟨[⟨7, "/data"⟩],
   [⟨1, 7, "a", none, "A", "file:generic", "t", "m", 0, none, none⟩,
    ⟨2, 7, "b", none, "B", "file:generic", "t", "m", 0, none, none⟩,
    ⟨3, 7, "c", none, "C", "file:generic", "t", "m", 0, none, none⟩],
   4⟩

/-- An empty user-domain database (fresh autoincrement counters), used
by the concrete witnesses. -/
def emptyUserDB : UserDB := ⟨[], [], [], [], [], 1, 1⟩

/-- A concrete user payload, used by the concrete witnesses. -/
def userPayloadA : UserCreate :=
  ⟨"A", "a", none, none, none, none, none, "ua", false, true, false⟩

/-- A second concrete user payload, used by the concrete witnesses. -/
def userPayloadB : UserCreate :=
  ⟨"B", "b", none, none, none, none, none, "ub", false, true, false⟩

/-- Whether a session operation raised an exception. -/
def isError {α : Type} (e : Except String α) : Bool :=
  match e with
  | Except.ok _ => false
  | Except.error _ => true

lemma hasProviderName_append (reg₁ reg₂ : Registry) (n : String) :
    hasProviderName (reg₁ ++ reg₂) n =
      (hasProviderName reg₁ n || hasProviderName reg₂ n) := by
  unfold hasProviderName
  exact List.any_append

lemma find?_of_hasProviderName_false (reg : Registry) (n : String)
    (h : hasProviderName reg n = false) :
    reg.find? (fun kv => kv.1 == n) = none := by
  rw [List.find?_eq_none]
  intro kv hkv
  have := (List.any_eq_false).1 h kv hkv
  simpa using this

end OpenRelik

/-- C4: for any two provider classes whose NAME attributes agree up to
letter case, if the first class's normalized name is not yet registered,
then `register_provider` accepts the first class and rejects the second
with a duplicate-provider error (names are lowercased before insertion). -/
theorem register_case_insensitive_duplicate_fails
    (reg : OpenRelik.Registry) (p q : OpenRelik.ProviderClass)
    (hfresh : OpenRelik.hasProviderName reg (OpenRelik.pyLower p.NAME) = false)
    (hcase : OpenRelik.pyLower p.NAME = OpenRelik.pyLower q.NAME) :
    ∃ reg₂, OpenRelik.register_provider reg p = Except.ok reg₂ ∧
      ∃ msg, OpenRelik.register_provider reg₂ q = Except.error msg := by
  refine ⟨reg ++ [(OpenRelik.pyLower p.NAME, p)], ?_, ?_⟩
  · unfold OpenRelik.register_provider
    simp [hfresh]
  · refine ⟨"Provider " ++ q.NAME ++ " already registered", ?_⟩
    unfold OpenRelik.register_provider
    have hdup : OpenRelik.hasProviderName
        (reg ++ [(OpenRelik.pyLower p.NAME, p)])
        (OpenRelik.pyLower q.NAME) = true := by
      rw [OpenRelik.hasProviderName_append]
      simp [OpenRelik.hasProviderName, hcase]
    simp [hdup]

/-- Witness for C4 at concrete inputs: registering a class named
"Ollama" into an empty registry succeeds, and then registering a class
named "OLLAMA" fails. -/
theorem register_case_insensitive_duplicate_fails_witness :
    OpenRelik.hasProviderName [] (OpenRelik.pyLower "Ollama") = false ∧
    OpenRelik.pyLower "Ollama" = OpenRelik.pyLower "OLLAMA" ∧
    ∃ reg₂, OpenRelik.register_provider []
        { NAME := "Ollama", classId := 0 } = Except.ok reg₂ ∧
      ∃ msg, OpenRelik.register_provider reg₂
        { NAME := "OLLAMA", classId := 1 } = Except.error msg := by
  refine ⟨by decide, by decide, ?_⟩
  exact register_case_insensitive_duplicate_fails []
    { NAME := "Ollama", classId := 0 } { NAME := "OLLAMA", classId := 1 }
    (by decide) (by decide)

/-- C5: if `register_provider` accepts a class `p`, then `get_provider`
applied to any string equal to `p.NAME` up to letter case returns `p`:
the register-then-get round trip is the identity regardless of the case
of the lookup name. -/
theorem get_after_register_case_insensitive
    (reg reg₂ : OpenRelik.Registry) (p : OpenRelik.ProviderClass)
    (n : String)
    (hreg : OpenRelik.register_provider reg p = Except.ok reg₂)
    (hcase : OpenRelik.pyLower n = OpenRelik.pyLower p.NAME) :
    OpenRelik.get_provider reg₂ n = Except.ok p := by
  unfold OpenRelik.register_provider at hreg
  by_cases hdup :
      OpenRelik.hasProviderName reg (OpenRelik.pyLower p.NAME) = true
  · simp [hdup] at hreg
  · have hfresh :
        OpenRelik.hasProviderName reg (OpenRelik.pyLower p.NAME) = false := by
      simpa using hdup
    simp only [hfresh, Bool.false_eq_true, if_false, Except.ok.injEq] at hreg
    unfold OpenRelik.get_provider
    rw [← hreg, hcase, List.find?_append,
      OpenRelik.find?_of_hasProviderName_false reg _ hfresh]
    simp

/-- Witness for C5 at concrete inputs: after registering a class named
"Ollama" in an empty registry, looking up "OLLAMA" returns that class. -/
theorem get_after_register_case_insensitive_witness :
    OpenRelik.register_provider [] { NAME := "Ollama", classId := 0 } =
      Except.ok [("ollama", { NAME := "Ollama", classId := 0 })] ∧
    OpenRelik.pyLower "OLLAMA" =
      OpenRelik.pyLower (OpenRelik.ProviderClass.NAME
        { NAME := "Ollama", classId := 0 }) ∧
    OpenRelik.get_provider [("ollama", { NAME := "Ollama", classId := 0 })]
      "OLLAMA" = Except.ok { NAME := "Ollama", classId := 0 } := by
  refine ⟨rfl, by decide, ?_⟩
  exact get_after_register_case_insensitive []
    [("ollama", { NAME := "Ollama", classId := 0 })]
    { NAME := "Ollama", classId := 0 } "OLLAMA" rfl (by decide)

/-- Counterexample to C1 as stated: on a database holding no File row
with id 1 and no UserRole row with id 1, `delete_file_from_db 1` and
`delete_user_role_from_db 1` are not silent no-ops — each call raises,
because `Session.delete` rejects the None produced by the failed
lookup. -/
theorem delete_missing_row_raises_cex :
    OpenRelik.sessionGetFile ⟨[], [], 1⟩ 1 = none ∧
    OpenRelik.isError (OpenRelik.delete_file_from_db ⟨[], [], 1⟩ 1) = true ∧
    OpenRelik.userRoleQueryFirst ⟨[], [], [], [], [], 1, 1⟩ 1 = none ∧
    OpenRelik.isError
      (OpenRelik.delete_user_role_from_db ⟨[], [], [], [], [], 1, 1⟩ 1) =
      true := by
  exact ⟨rfl, rfl, rfl, rfl⟩

/-- C1 (amended): for every call of `delete_file_from_db` (resp.
`delete_user_role_from_db`) with an id for which no File (resp.
UserRole) row exists, the call raises an error (SQLAlchemy's
`Session.delete` rejects the None returned by the lookup) and leaves
the database state unchanged. -/
theorem delete_missing_row_error_state_unchanged :
    (∀ (db : OpenRelik.FileDB) (file_id : Nat),
      OpenRelik.sessionGetFile db file_id = none →
      OpenRelik.isError (OpenRelik.delete_file_from_db db file_id) = true ∧
      OpenRelik.fileDbAfterDelete db file_id = db) ∧
    (∀ (db : OpenRelik.UserDB) (user_role_id : Nat),
      OpenRelik.userRoleQueryFirst db user_role_id = none →
      OpenRelik.isError (OpenRelik.delete_user_role_from_db db user_role_id) =
        true ∧
      OpenRelik.userDbAfterRoleDelete db user_role_id = db) := by
  constructor
  · intro db file_id h
    have h₁ : OpenRelik.delete_file_from_db db file_id =
        Except.error "UnmappedInstanceError: None is not mapped" := by
      unfold OpenRelik.delete_file_from_db
      rw [h]
      rfl
    refine ⟨by rw [h₁]; rfl, ?_⟩
    unfold OpenRelik.fileDbAfterDelete
    rw [h₁]
  · intro db user_role_id h
    have h₁ : OpenRelik.delete_user_role_from_db db user_role_id =
        Except.error "UnmappedInstanceError: None is not mapped" := by
      unfold OpenRelik.delete_user_role_from_db
      rw [h]
      rfl
    refine ⟨by rw [h₁]; rfl, ?_⟩
    unfold OpenRelik.userDbAfterRoleDelete
    rw [h₁]

/-- Witness for the amended C1 at concrete inputs: both deletions on an
empty database raise and leave the state unchanged. -/
theorem delete_missing_row_error_state_unchanged_witness :
    (OpenRelik.sessionGetFile ⟨[], [], 1⟩ 5 = none ∧
      OpenRelik.isError (OpenRelik.delete_file_from_db ⟨[], [], 1⟩ 5) = true ∧
      OpenRelik.fileDbAfterDelete ⟨[], [], 1⟩ 5 = ⟨[], [], 1⟩) ∧
    (OpenRelik.userRoleQueryFirst ⟨[], [], [], [], [], 1, 1⟩ 5 = none ∧
      OpenRelik.isError
        (OpenRelik.delete_user_role_from_db ⟨[], [], [], [], [], 1, 1⟩ 5) =
        true ∧
      OpenRelik.userDbAfterRoleDelete ⟨[], [], [], [], [], 1, 1⟩ 5 =
        ⟨[], [], [], [], [], 1, 1⟩) := by
  constructor
  · have h := delete_missing_row_error_state_unchanged.1 ⟨[], [], 1⟩ 5 rfl
    exact ⟨rfl, h.1, h.2⟩
  · have h :=
      delete_missing_row_error_state_unchanged.2 ⟨[], [], [], [], [], 1, 1⟩ 5
        rfl
    exact ⟨rfl, h.1, h.2⟩

/-- C3: deleting a Workflow deletes exactly the Task rows whose
workflow_id references it (a Task survives iff its workflow_id differs),
while the File table keeps exactly the same row identifiers — no File
row is deleted by a Workflow deletion, Files at most lose their detached
task references. -/
theorem delete_workflow_cascade_tasks_preserves_files
    (db : OpenRelik.WorkflowDB) (workflow_id : Nat) :
    (∀ t, t ∈ (OpenRelik.delete_workflow_from_db db workflow_id).tasks ↔
      t ∈ db.tasks ∧ t.workflow_id ≠ workflow_id) ∧
    (OpenRelik.delete_workflow_from_db db workflow_id).files.map
        (fun f => f.id) =
      db.files.map (fun f => f.id) ∧
    (OpenRelik.delete_workflow_from_db db workflow_id).workflows =
      db.workflows.filter (fun w => w.id != workflow_id) := by
  refine ⟨?_, ?_, rfl⟩
  · intro t
    unfold OpenRelik.delete_workflow_from_db
    simp [List.mem_filter]
  · unfold OpenRelik.delete_workflow_from_db
    simp only [List.map_map]
    rfl

/-- C6: when filesystem inspection of the derived path fails (missing
file, permission error), `create_file_in_db` fails as a whole and no
File row is persisted: the session state after the failed call equals
the state before it. -/
theorem create_file_fs_failure_no_persist
    (fs : String → Option OpenRelik.FsMeta) (db : OpenRelik.FileDB)
    (file : OpenRelik.NewFile) (folder : OpenRelik.FolderRow)
    (hfolder : OpenRelik.get_folder_from_db db file.folder_id = some folder)
    (hfs : fs (OpenRelik.osPathJoin folder.path
      (OpenRelik.fileBaseName file)) = none) :
    OpenRelik.isError (OpenRelik.create_file_in_db fs db file) = true ∧
    OpenRelik.fileDbAfterCreate fs db file = db := by
  have h₁ : OpenRelik.create_file_in_db fs db file =
      Except.error "magic.from_file: cannot open the derived path" := by
    unfold OpenRelik.create_file_in_db
    rw [hfolder]
    simp [hfs]
  refine ⟨by rw [h₁]; rfl, ?_⟩
  unfold OpenRelik.fileDbAfterCreate
  rw [h₁]

/-- Witness for C6 at concrete inputs: with folder 7 present and a
filesystem on which every inspection fails, creating a file in folder 7
raises and the session state is unchanged. -/
theorem create_file_fs_failure_no_persist_witness :
    OpenRelik.get_folder_from_db ⟨[⟨7, "/data"⟩], [], 1⟩
      (OpenRelik.NewFile.folder_id ⟨7, "u1", none, none, "A"⟩) =
      some ⟨7, "/data"⟩ ∧
    OpenRelik.isError (OpenRelik.create_file_in_db (fun _ => none)
      ⟨[⟨7, "/data"⟩], [], 1⟩ ⟨7, "u1", none, none, "A"⟩) = true ∧
    OpenRelik.fileDbAfterCreate (fun _ => none) ⟨[⟨7, "/data"⟩], [], 1⟩
      ⟨7, "u1", none, none, "A"⟩ = ⟨[⟨7, "/data"⟩], [], 1⟩ := by
  refine ⟨rfl, ?_⟩
  exact create_file_fs_failure_no_persist (fun _ => none)
    ⟨[⟨7, "/data"⟩], [], 1⟩ ⟨7, "u1", none, none, "A"⟩ ⟨7, "/data"⟩ rfl rfl

/-- C7: for an api-key id whose owning user differs from the calling
user, `delete_user_api_key_from_db` is a no-op — the database, and in
particular the key row, is left exactly as it was. -/
theorem delete_api_key_other_user_noop
    (db : OpenRelik.UserDB) (apikey_id : Nat)
    (current_user : OpenRelik.UserRow)
    (h : ∀ k ∈ db.api_keys, k.id = apikey_id →
      k.user_id ≠ current_user.id) :
    OpenRelik.delete_user_api_key_from_db db apikey_id current_user = db := by
  unfold OpenRelik.delete_user_api_key_from_db
  have hf : db.api_keys.find?
      (fun k => k.id == apikey_id && k.user_id == current_user.id) = none := by
    rw [List.find?_eq_none]
    intro k hk hp
    simp only [Bool.and_eq_true, beq_iff_eq] at hp
    exact h k hk hp.1 hp.2
  rw [hf]

/-- Witness for C7 at concrete inputs: user 7 asking to delete key 1,
which belongs to user 42, leaves the database unchanged. -/
theorem delete_api_key_other_user_noop_witness :
    (∀ k ∈ (⟨[], [], [], [], [⟨1, "k", "d", "jti", 0, 42⟩], 1, 1⟩ :
        OpenRelik.UserDB).api_keys, k.id = 1 →
      k.user_id ≠ (⟨7, "B", "b", none, none, none, none, none, "uu",
        false, true, false⟩ : OpenRelik.UserRow).id) ∧
    OpenRelik.delete_user_api_key_from_db
        ⟨[], [], [], [], [⟨1, "k", "d", "jti", 0, 42⟩], 1, 1⟩ 1
        ⟨7, "B", "b", none, none, none, none, none, "uu", false, true,
          false⟩ =
      ⟨[], [], [], [], [⟨1, "k", "d", "jti", 0, 42⟩], 1, 1⟩ := by
  refine ⟨by decide, ?_⟩
  exact delete_api_key_other_user_noop
    ⟨[], [], [], [], [⟨1, "k", "d", "jti", 0, 42⟩], 1, 1⟩ 1
    ⟨7, "B", "b", none, none, none, none, none, "uu", false, true, false⟩
    (by decide)

/-- C9: `get_system_config` evaluated at a configuration without the
llms key. `config.get("llms", [])` produces the list default and the
immediately following `.values()` call raises AttributeError, so the
request fails (HTTP 500) instead of succeeding with HTTP 200 as the
claim states; with the key present the endpoint does return the
`{active_llms, data_types, active_cloud}` object. -/
theorem get_system_config_missing_llms_fails :
    OpenRelik.get_system_config ⟨none, none⟩ =
      Except.error "AttributeError: list object has no attribute values" ∧
    OpenRelik.get_system_config ⟨some [("svc", ⟨"svc", some true⟩)], none⟩ =
      Except.ok ⟨[⟨"svc", some true⟩], ["text/csv", "text/json"], none⟩ := by
  exact ⟨rfl, rfl⟩

/-- C10: `create_file_in_db` requires the referenced folder to exist.
When the folder lookup returns None, the call fails with the
AttributeError raised by dereferencing `folder.path`, whatever the
filesystem contains (the failure precedes any filesystem access) and
the session state is unchanged (the failure precedes any database
write); when the folder exists, that failure branch is unreachable. -/
theorem create_file_missing_folder_fails_early
    (db : OpenRelik.FileDB) (file : OpenRelik.NewFile) :
    (OpenRelik.get_folder_from_db db file.folder_id = none →
      ∀ fs, OpenRelik.create_file_in_db fs db file =
          Except.error "AttributeError: NoneType object has no attribute path" ∧
        OpenRelik.fileDbAfterCreate fs db file = db) ∧
    (∀ folder,
      OpenRelik.get_folder_from_db db file.folder_id = some folder →
      ∀ fs, OpenRelik.create_file_in_db fs db file ≠
        Except.error
          "AttributeError: NoneType object has no attribute path") := by
  constructor
  · intro h fs
    have h₁ : OpenRelik.create_file_in_db fs db file =
        Except.error "AttributeError: NoneType object has no attribute path" := by
      unfold OpenRelik.create_file_in_db
      rw [h]
    refine ⟨h₁, ?_⟩
    unfold OpenRelik.fileDbAfterCreate
    rw [h₁]
  · intro folder h fs
    unfold OpenRelik.create_file_in_db
    rw [h]
    cases hfs : fs (OpenRelik.osPathJoin folder.path
        (OpenRelik.fileBaseName file)) with
    | none =>
        simp only [hfs]
        intro hcontra
        have h₂ := Except.error.inj hcontra
        exact absurd h₂ (by decide)
    | some meta => simp [hfs]

/-- Witness for C10 at concrete inputs: with an empty Folder table, the
creation fails with the null-folder dereference error even on a
filesystem where every inspection would succeed. -/
theorem create_file_missing_folder_fails_early_witness :
    OpenRelik.get_folder_from_db ⟨[], [], 1⟩
      (OpenRelik.NewFile.folder_id ⟨3, "u", none, none, "A"⟩) = none ∧
    OpenRelik.create_file_in_db (fun _ => some ⟨"t", "m", 0⟩) ⟨[], [], 1⟩
        ⟨3, "u", none, none, "A"⟩ =
      Except.error "AttributeError: NoneType object has no attribute path" ∧
    OpenRelik.fileDbAfterCreate (fun _ => some ⟨"t", "m", 0⟩) ⟨[], [], 1⟩
      ⟨3, "u", none, none, "A"⟩ = ⟨[], [], 1⟩ := by
  refine ⟨rfl, ?_⟩
  exact (create_file_missing_folder_fails_early ⟨[], [], 1⟩
    ⟨3, "u", none, none, "A"⟩).1 rfl (fun _ => some ⟨"t", "m", 0⟩)

namespace OpenRelik

lemma create_user_in_db_found (db : UserDB) (u : UserCreate) (eg : GroupRow)
    (hg : get_group_by_name_from_db db "Everyone" = some eg) :
    create_user_in_db db u =
      (newUserRow db u,
        { db with
          users := db.users ++ [newUserRow db u],
          user_groups := db.user_groups ++ [((newUserRow db u).id, eg.id)],
          next_user_id := db.next_user_id + 1 }) := by
  unfold create_user_in_db
  rw [hg]

lemma create_user_in_db_absent (db : UserDB) (u : UserCreate)
    (hg : get_group_by_name_from_db db "Everyone" = none) :
    create_user_in_db db u =
      (newUserRow db u,
        { db with
          groups := db.groups ++ [⟨db.next_group_id, "Everyone"⟩],
          users := db.users ++ [newUserRow db u],
          user_groups :=
            db.user_groups ++ [((newUserRow db u).id, db.next_group_id)],
          next_user_id := db.next_user_id + 1,
          next_group_id := db.next_group_id + 1 }) := by
  unfold create_user_in_db
  rw [hg]
  rfl

end OpenRelik

/-- C2: every user created via `create_user_in_db` becomes a member of
an "Everyone" group row, and two users created in sequence share one
single "Everyone" group row: starting from a database that does not
already duplicate that group, after both calls exactly one "Everyone"
group row exists — created by the first call that found it absent and
reused, not duplicated, by the later call — and both created users are
members of it. -/
theorem create_user_everyone_group_shared
    (db : OpenRelik.UserDB) (u₁ u₂ : OpenRelik.UserCreate)
    (h : db.groups.countP (fun g => g.name == "Everyone") ≤ 1) :
    ((OpenRelik.create_user_in_db
        (OpenRelik.create_user_in_db db u₁).2 u₂).2.groups.countP
      (fun g => g.name == "Everyone") = 1) ∧
    ∃ g ∈ (OpenRelik.create_user_in_db
        (OpenRelik.create_user_in_db db u₁).2 u₂).2.groups,
      g.name = "Everyone" ∧
      ((OpenRelik.create_user_in_db db u₁).1.id, g.id) ∈
        (OpenRelik.create_user_in_db
          (OpenRelik.create_user_in_db db u₁).2 u₂).2.user_groups ∧
      ((OpenRelik.create_user_in_db
          (OpenRelik.create_user_in_db db u₁).2 u₂).1.id, g.id) ∈
        (OpenRelik.create_user_in_db
          (OpenRelik.create_user_in_db db u₁).2 u₂).2.user_groups := by
  cases hg : OpenRelik.get_group_by_name_from_db db "Everyone" with
  | some eg =>
      have hegMem : eg ∈ db.groups := List.mem_of_find?_eq_some hg
      have hegName : eg.name = "Everyone" := by
        have := List.find?_some hg
        simpa using this
      have e₁ := OpenRelik.create_user_in_db_found db u₁ eg hg
      have hdb₁ : (OpenRelik.create_user_in_db db u₁).2 =
          { db with
            users := db.users ++ [OpenRelik.newUserRow db u₁],
            user_groups := db.user_groups ++
              [((OpenRelik.newUserRow db u₁).id, eg.id)],
            next_user_id := db.next_user_id + 1 } := congrArg Prod.snd e₁
      have hu₁ : (OpenRelik.create_user_in_db db u₁).1 =
          OpenRelik.newUserRow db u₁ := congrArg Prod.fst e₁
      have hg₂ : OpenRelik.get_group_by_name_from_db
          (OpenRelik.create_user_in_db db u₁).2 "Everyone" = some eg := by
        unfold OpenRelik.get_group_by_name_from_db
        rw [hdb₁]
        exact hg
      have e₂ := OpenRelik.create_user_in_db_found
        (OpenRelik.create_user_in_db db u₁).2 u₂ eg hg₂
      have hdb₂ : (OpenRelik.create_user_in_db
          (OpenRelik.create_user_in_db db u₁).2 u₂).2 =
          { (OpenRelik.create_user_in_db db u₁).2 with
            users := (OpenRelik.create_user_in_db db u₁).2.users ++
              [OpenRelik.newUserRow (OpenRelik.create_user_in_db db u₁).2 u₂],
            user_groups := (OpenRelik.create_user_in_db db u₁).2.user_groups ++
              [((OpenRelik.newUserRow (OpenRelik.create_user_in_db db u₁).2
                u₂).id, eg.id)],
            next_user_id :=
              (OpenRelik.create_user_in_db db u₁).2.next_user_id + 1 } :=
        congrArg Prod.snd e₂
      have hu₂ : (OpenRelik.create_user_in_db
          (OpenRelik.create_user_in_db db u₁).2 u₂).1 =
          OpenRelik.newUserRow (OpenRelik.create_user_in_db db u₁).2 u₂ :=
        congrArg Prod.fst e₂
      have hgroups : (OpenRelik.create_user_in_db
          (OpenRelik.create_user_in_db db u₁).2 u₂).2.groups = db.groups := by
        rw [hdb₂, hdb₁]
      have hug : (OpenRelik.create_user_in_db
          (OpenRelik.create_user_in_db db u₁).2 u₂).2.user_groups =
          (db.user_groups ++ [((OpenRelik.newUserRow db u₁).id, eg.id)]) ++
            [((OpenRelik.newUserRow (OpenRelik.create_user_in_db db u₁).2
              u₂).id, eg.id)] := by
        rw [hdb₂, hdb₁]
      constructor
      · rw [hgroups]
        refine Nat.le_antisymm h ?_
        exact List.countP_pos_iff.2 ⟨eg, hegMem, by simp [hegName]⟩
      · refine ⟨eg, ?_, hegName, ?_, ?_⟩
        · rw [hgroups]
          exact hegMem
        · rw [hug, hu₁]
          exact List.mem_append.2 (Or.inl (List.mem_append.2 (Or.inr
            (List.mem_singleton.2 rfl))))
        · rw [hug, hu₂]
          exact List.mem_append.2 (Or.inr (List.mem_singleton.2 rfl))
  | none =>
      have hzero : db.groups.countP (fun g => g.name == "Everyone") = 0 := by
        rw [List.countP_eq_zero]
        intro g hgMem
        exact List.find?_eq_none.1 hg g hgMem
      have e₁ := OpenRelik.create_user_in_db_absent db u₁ hg
      have hdb₁ : (OpenRelik.create_user_in_db db u₁).2 =
          { db with
            groups := db.groups ++ [⟨db.next_group_id, "Everyone"⟩],
            users := db.users ++ [OpenRelik.newUserRow db u₁],
            user_groups := db.user_groups ++
              [((OpenRelik.newUserRow db u₁).id, db.next_group_id)],
            next_user_id := db.next_user_id + 1,
            next_group_id := db.next_group_id + 1 } := congrArg Prod.snd e₁
      have hu₁ : (OpenRelik.create_user_in_db db u₁).1 =
          OpenRelik.newUserRow db u₁ := congrArg Prod.fst e₁
      have hg₂ : OpenRelik.get_group_by_name_from_db
          (OpenRelik.create_user_in_db db u₁).2 "Everyone" =
          some ⟨db.next_group_id, "Everyone"⟩ := by
        unfold OpenRelik.get_group_by_name_from_db at hg ⊢
        rw [hdb₁]
        show (db.groups ++
            [(⟨db.next_group_id, "Everyone"⟩ : OpenRelik.GroupRow)]).find?
          (fun g => g.name == "Everyone") = some ⟨db.next_group_id, "Everyone"⟩
        rw [List.find?_append, hg]
        rfl
      have e₂ := OpenRelik.create_user_in_db_found
        (OpenRelik.create_user_in_db db u₁).2 u₂
        ⟨db.next_group_id, "Everyone"⟩ hg₂
      have hdb₂ := congrArg Prod.snd e₂
      have hu₂ := congrArg Prod.fst e₂
      have hgroups : (OpenRelik.create_user_in_db
          (OpenRelik.create_user_in_db db u₁).2 u₂).2.groups =
          db.groups ++ [⟨db.next_group_id, "Everyone"⟩] := by
        rw [hdb₂, hdb₁]
      have hug : (OpenRelik.create_user_in_db
          (OpenRelik.create_user_in_db db u₁).2 u₂).2.user_groups =
          (db.user_groups ++
            [((OpenRelik.newUserRow db u₁).id, db.next_group_id)]) ++
            [((OpenRelik.newUserRow (OpenRelik.create_user_in_db db u₁).2
              u₂).id, db.next_group_id)] := by
        rw [hdb₂, hdb₁]
      constructor
      · rw [hgroups, List.countP_append, hzero]
        rfl
      · refine ⟨⟨db.next_group_id, "Everyone"⟩, ?_, rfl, ?_, ?_⟩
        · rw [hgroups]
          exact List.mem_append.2 (Or.inr (List.mem_singleton.2 rfl))
        · rw [hug, hu₁]
          exact List.mem_append.2 (Or.inl (List.mem_append.2 (Or.inr
            (List.mem_singleton.2 rfl))))
        · rw [hug, hu₂]
          exact List.mem_append.2 (Or.inr (List.mem_singleton.2 rfl))

/-- Witness for C2 at concrete inputs: creating two users in an empty
database yields exactly one "Everyone" group row with both users as
members. -/
theorem create_user_everyone_group_shared_witness :
    (OpenRelik.emptyUserDB.groups.countP
      (fun g => g.name == "Everyone") ≤ 1) ∧
    ((OpenRelik.create_user_in_db
        (OpenRelik.create_user_in_db OpenRelik.emptyUserDB
          OpenRelik.userPayloadA).2
        OpenRelik.userPayloadB).2.groups.countP
      (fun g => g.name == "Everyone") = 1) ∧
    ∃ g ∈ (OpenRelik.create_user_in_db
        (OpenRelik.create_user_in_db OpenRelik.emptyUserDB
          OpenRelik.userPayloadA).2
        OpenRelik.userPayloadB).2.groups,
      g.name = "Everyone" ∧
      ((OpenRelik.create_user_in_db OpenRelik.emptyUserDB
          OpenRelik.userPayloadA).1.id, g.id) ∈
        (OpenRelik.create_user_in_db
          (OpenRelik.create_user_in_db OpenRelik.emptyUserDB
            OpenRelik.userPayloadA).2
          OpenRelik.userPayloadB).2.user_groups ∧
      ((OpenRelik.create_user_in_db
          (OpenRelik.create_user_in_db OpenRelik.emptyUserDB
            OpenRelik.userPayloadA).2
          OpenRelik.userPayloadB).1.id, g.id) ∈
        (OpenRelik.create_user_in_db
          (OpenRelik.create_user_in_db OpenRelik.emptyUserDB
            OpenRelik.userPayloadA).2
          OpenRelik.userPayloadB).2.user_groups := by
  refine ⟨by decide, ?_⟩
  exact create_user_everyone_group_shared OpenRelik.emptyUserDB
    OpenRelik.userPayloadA OpenRelik.userPayloadB (by decide)

/-- C8: `get_files_from_db` returns exactly the File rows whose
folder_id matches the requested folder and — table identifiers being
unique — orders them by strictly descending File id (most recent
first). -/
theorem get_files_folder_desc_order
    (db : OpenRelik.FileDB) (folder_id : Nat)
    (h : (db.files.map (fun f => f.id)).Nodup) :
    (∀ f, f ∈ OpenRelik.get_files_from_db db folder_id ↔
      f ∈ db.files ∧ f.folder_id = folder_id) ∧
    (OpenRelik.get_files_from_db db folder_id).Pairwise
      (fun a b => b.id < a.id) := by
  have hperm : List.Perm (OpenRelik.get_files_from_db db folder_id)
      (db.files.filter (fun f => f.folder_id == folder_id)) := by
    unfold OpenRelik.get_files_from_db
    exact List.perm_insertionSort _ _
  constructor
  · intro f
    rw [hperm.mem_iff, List.mem_filter]
    simp
  · have hsorted : (OpenRelik.get_files_from_db db folder_id).Pairwise
        OpenRelik.fileIdGe := by
      unfold OpenRelik.get_files_from_db
      exact List.sorted_insertionSort _ _
    have hsub : ((db.files.filter (fun f => f.folder_id == folder_id)).map
        (fun f => f.id)).Sublist (db.files.map (fun f => f.id)) :=
      (List.filter_sublist _).map _
    have hnodupF := h.sublist hsub
    have hnodup : ((OpenRelik.get_files_from_db db folder_id).map
        (fun f => f.id)).Nodup :=
      ((hperm.map (fun f => f.id)).nodup_iff).2 hnodupF
    have hne : (OpenRelik.get_files_from_db db folder_id).Pairwise
        (fun a b => a.id ≠ b.id) := by
      rw [List.Nodup, List.pairwise_map] at hnodup
      exact hnodup
    exact (hsorted.and hne).imp
      (fun hab => Nat.lt_of_le_of_ne hab.1 (fun he => hab.2 he.symm))

/-- Witness for C8 at concrete inputs: for files created in order A, B,
C (ids 1, 2, 3) in folder 7, the listing is C, B, A. -/
theorem get_files_folder_desc_order_witness :
    ((OpenRelik.threeFileDB.files.map (fun f => f.id)).Nodup) ∧
    (OpenRelik.get_files_from_db OpenRelik.threeFileDB 7).Pairwise
      (fun a b => b.id < a.id) ∧
    (OpenRelik.get_files_from_db OpenRelik.threeFileDB 7).map
      (fun f => f.display_name) = ["C", "B", "A"] := by
  exact ⟨by decide,
    (get_files_folder_desc_order OpenRelik.threeFileDB 7 (by decide)).2,
    by decide⟩
